import Mathlib

/-!
Shallow embedding of the order/stock business logic of `src/app.py`
(a Flask + MongoDB back office).  The Mongo collections `productos`,
`pedidos`, `detalle_pedido` and `auditoria` are modelled as association
lists keyed by `Nat` document ids; Python floats used for prices and
totals are modelled as rationals (the arithmetic performed by the code
is plain multiplication and summation); Python ints as `Int`.
Binary image fields (`image_data`, `image_mime`, GridFS avatars) play no
role in any claim and are omitted from the record types.
-/

namespace MongoBites

/-- A document of the `productos` collection (see `productos_crear` /
`productos_actualizar` in `src/app.py`).  `stock` is an `Int` because the
Mongo `$inc` updates in `pedidos_crear` and `cambiar_estado_pedido` are
unguarded and can in principle drive it below zero. -/
structure Producto where
  nombre : String
  categoria : String
  precio : ℚ
  stock : Int
  activo : Bool
deriving DecidableEq, Repr

/-- A document of the `pedidos` collection as written by `pedidos_crear`.
`estado` is an `Option String` so that stored documents with a missing
`estado` field (handled by `pedido.get("estado") or "CREADO"` in
`cambiar_estado_pedido`) are representable.  `fecha` is an abstract
timestamp. -/
structure Pedido where
  id_cliente : Nat
  fecha : Nat
  total : ℚ
  estado : Option String
  metodo_pago : String
  creado_por : String
deriving DecidableEq, Repr

/-- A document of the `detalle_pedido` collection: one line item of an
order, with name/price snapshotted from the product at creation time.
`id_pedido` is filled in by `pedidos_crear` just before insertion (the
Python dict has no `id_pedido` key during validation; we carry a
placeholder `0` there). -/
structure Detalle where
  id_pedido : Nat
  id_producto : Nat
  nombre_producto : String
  cantidad : Int
  precio_unit : ℚ
  subtotal : ℚ
deriving DecidableEq, Repr

/-- A document of the `auditoria` collection as written by
`cambiar_estado_pedido`: the `antes`/`despues` fields hold the prior and
the new order status. -/
structure Auditoria where
  entidad : String
  entidad_id : Nat
  accion : String
  antes : String
  despues : String
  usuario_app : String
  fecha : Nat
deriving DecidableEq, Repr

/-- The database state: the four collections touched by the order/stock
logic.  `nextPedidoId` models Mongo's fresh `_id` generation for
`pedidos.insert_one`. -/
structure DB where
  productos : List (Nat × Producto)
  pedidos : List (Nat × Pedido)
  detalle_pedido : List Detalle
  auditoria : List Auditoria
  nextPedidoId : Nat
deriving DecidableEq, Repr

/-- Python's `str.upper()` on the ASCII state strings involved:
upper-case every character. -/
def pyUpper (s : String) : String := ⟨s.data.map Char.toUpper⟩

/-- Python's `str.strip()`: remove leading and trailing whitespace. -/
def pyStrip (s : String) : String :=
  ⟨((s.data.dropWhile Char.isWhitespace).reverse.dropWhile
      Char.isWhitespace).reverse⟩

/-- `find_one({"_id": k})`: the first document with the given id. -/
def findDoc {α : Type} (l : List (Nat × α)) (k : Nat) : Option α :=
  match l with
  | [] => none
  | (i, a) :: t => if i = k then some a else findDoc t k

/-- `update_one({"_id": k}, ...)`: update the first document with the
given id (a no-op when no document matches, as in Mongo). -/
def updateFirst {α : Type} (l : List (Nat × α)) (k : Nat) (f : α → α) :
    List (Nat × α) :=
  match l with
  | [] => []
  | (i, a) :: t => if i = k then (i, f a) :: t else (i, a) :: updateFirst t k f

/-- `delete_one({"_id": k})`: remove the first document with the given id. -/
def deleteFirst {α : Type} (l : List (Nat × α)) (k : Nat) : List (Nat × α) :=
  match l with
  | [] => []
  | (i, a) :: t => if i = k then t else (i, a) :: deleteFirst t k

/-- `find_one({"_id": pid, "activo": True})` on `productos`: the product
must exist and be active. -/
def findProductoActivo (db : DB) (pid : Nat) : Option Producto :=
  match findDoc db.productos pid with
  | none => none
  | some p => if p.activo then some p else none

/-! ### Order creation: `pedidos_crear` (src/app.py lines 627-698) -/

/-- The raw form data of one (product, quantity) pair.  The quantity is
`some q` when Python's `int(cant)` succeeds with value `q`, and `none`
when it raises (a non-integer string). -/
abbrev RawItem := Nat × Option Int

/-- The normalisation loop of `pedidos_crear` (lines 639-646): pairs
whose quantity fails to parse, or parses to a non-positive integer, are
silently skipped. -/
def normaliza (raw : List RawItem) : List (Nat × Int) :=
  raw.filterMap fun pq =>
    match pq.2 with
    | some q => if 0 < q then some (pq.1, q) else none
    | none => none

/-- The validation loop of `pedidos_crear` (lines 652-670): each line's
product must exist and be active, and its stock must cover the requested
quantity; on success it accumulates the total and builds the snapshot
line items.  All lines are checked against the database state at entry
(no write happens during validation, mirroring the code). -/
def valida (db : DB) : List (Nat × Int) → Except String (ℚ × List Detalle)
  | [] => .ok (0, [])
  | (pid, q) :: rest =>
    match findProductoActivo db pid with
    | none => .error "Producto no encontrado o inactivo."
    | some prod =>
      if prod.stock < q then
        .error ("Stock insuficiente para " ++ prod.nombre ++ ".")
      else
        match valida db rest with
        | .error e => .error e
        | .ok (t, ds) =>
          .ok (prod.precio * (q : ℚ) + t,
            ⟨0, pid, prod.nombre, q, prod.precio, prod.precio * (q : ℚ)⟩ :: ds)

/-- The write loop of `pedidos_crear` (lines 685-688): for each line,
insert the detail document (stamped with the order id) and decrement the
product's stock by the line quantity. -/
def aplicarDetalles (oid : Nat) : List Detalle → DB → DB
  | [], db => db
  | d :: t, db =>
    aplicarDetalles oid t
      { db with
        detalle_pedido := db.detalle_pedido ++ [{ d with id_pedido := oid }],
        productos := updateFirst db.productos d.id_producto
          (fun p => { p with stock := p.stock - d.cantidad }) }

/-- `pedidos_crear` (src/app.py lines 627-698).  Returns the new database
state and the created order's id, or the flashed error message.  The
`id_cliente` form field is taken as already present (its emptiness check
is orthogonal to every claim); the emptiness check on the item lists
(line 634, "Faltan datos del pedido.") is kept. -/
def pedidos_crear (db : DB) (id_cliente : Nat) (raw : List RawItem)
    (metodo_pago : String) (user : String) (fecha : Nat) :
    Except String (DB × Nat) :=
  if raw = [] then .error "Faltan datos del pedido."
  else
    match normaliza raw with
    | [] => .error "No hay items validos."
    | items@(_ :: _) =>
      match valida db items with
      | .error e => .error e
      | .ok (total, detalles) =>
        let oid := db.nextPedidoId
        let pedido : Pedido :=
          { id_cliente := id_cliente, fecha := fecha, total := total,
            estado := some "CREADO", metodo_pago := metodo_pago,
            creado_por := user }
        let db1 : DB :=
          { db with pedidos := db.pedidos ++ [(oid, pedido)],
                    nextPedidoId := oid + 1 }
        .ok (aplicarDetalles oid detalles db1, oid)

/-- The request/response view of `pedidos_crear`: on a flashed error the
handler redirects and the database is untouched (every write in the code
happens after all checks have passed).  The `Bool` is `true` on success. -/
def pedidos_crear_run (db : DB) (id_cliente : Nat) (raw : List RawItem)
    (metodo_pago : String) (user : String) (fecha : Nat) : DB × Bool :=
  match pedidos_crear db id_cliente raw metodo_pago user fecha with
  | .ok (db', _) => (db', true)
  | .error _ => (db, false)

/-! ### Status change: `cambiar_estado_pedido` (src/app.py lines 713-756) -/

/-- The four canonical states (the membership check on line 718). -/
def estadosValidos : List String := ["CREADO", "PAGADO", "ENVIADO", "CANCELADO"]

/-- The transition table of line 728-733, literally: `transiciones.get`
with default empty set for any unknown current state. -/
def transicionesList : String → List String
  | "CREADO" => ["PAGADO", "ENVIADO", "CANCELADO"]
  | "PAGADO" => ["ENVIADO", "CANCELADO"]
  | "ENVIADO" => ["PAGADO"]
  | _ => []

/-- `(pedido.get("estado") or "CREADO").strip().upper()` (line 727): a
missing or empty status field defaults to `"CREADO"`; otherwise the
stored string is trimmed and upper-cased. -/
def normEstado : Option String → String
  | none => "CREADO"
  | some s => if s = "" then "CREADO" else pyUpper (pyStrip s)

/-- A primitive database write performed by `cambiar_estado_pedido`, in
program order: the compensating stock increments (line 740-741), the
status `$set` (line 743), the audit insert (line 744-751). -/
inductive Effect where
  | incStock (pid : Nat) (delta : Int)
  | setEstado (oid : Nat) (nuevo : String)
  | insertAudit (a : Auditoria)
deriving DecidableEq, Repr

/-- Semantics of one primitive write. -/
def applyEffect (db : DB) : Effect → DB
  | .incStock pid delta =>
    let f := fun (p : Producto) => { p with stock := p.stock + delta }
    { db with productos := updateFirst db.productos pid f }
  | .setEstado oid nuevo =>
    let f := fun (p : Pedido) => { p with estado := some nuevo }
    { db with pedidos := updateFirst db.pedidos oid f }
  | .insertAudit a => { db with auditoria := db.auditoria ++ [a] }

/-- Apply a list of writes left to right (program order). -/
def applyEffects (db : DB) (effs : List Effect) : DB :=
  effs.foldl applyEffect db

/-- `cambiar_estado_pedido` (src/app.py lines 713-756), as the list of
database writes it performs in program order, or the flashed rejection
message.  The writes happen only after every check has passed, exactly
as in the code. -/
def cambiar_estado_pedido (db : DB) (id_pedido : Nat) (estadoForm : String)
    (usuario : String) (fecha : Nat) : Except String (List Effect) :=
  let nuevo := pyUpper (pyStrip estadoForm)
  if nuevo ∈ estadosValidos then
    match findDoc db.pedidos id_pedido with
    | none => .error "Pedido no encontrado."
    | some pedido =>
      let estado_actual := normEstado pedido.estado
      if nuevo ∈ transicionesList estado_actual then
        let restock : List Effect :=
          if nuevo = "CANCELADO" ∧ ¬estado_actual = "CANCELADO" then
            (db.detalle_pedido.filter (fun d => d.id_pedido = id_pedido)).map
              (fun d => Effect.incStock d.id_producto d.cantidad)
          else []
        .ok (restock ++
          [Effect.setEstado id_pedido nuevo,
           Effect.insertAudit
             { entidad := "pedido", entidad_id := id_pedido,
               accion := "CAMBIAR_ESTADO", antes := estado_actual,
               despues := nuevo, usuario_app := usuario, fecha := fecha }])
      else
        .error ("No se puede cambiar de " ++ estado_actual ++ " a " ++ nuevo ++ ".")
  else .error "Estado invalido."

/-- The request/response view of `cambiar_estado_pedido`: on acceptance
the writes are applied in order; on rejection the handler redirects with
the database untouched. -/
def cambiar_estado_pedido_run (db : DB) (id_pedido : Nat)
    (estadoForm : String) (usuario : String) (fecha : Nat) : DB × Bool :=
  match cambiar_estado_pedido db id_pedido estadoForm usuario fecha with
  | .ok effs => (applyEffects db effs, true)
  | .error _ => (db, false)

/-! ### Product update / delete: `productos_actualizar`, `productos_eliminar`
(src/app.py lines 412-467).  Image fields are omitted (see module
comment); the `$set` therefore replaces every modelled field. -/

/-- `productos_actualizar`: an empty (post-strip) name is rejected with
no write; otherwise the product document's fields are `$set`. -/
def productos_actualizar (db : DB) (pid : Nat) (nombre categoria : String)
    (precio : ℚ) (stock : Int) (activo : Bool) : DB :=
  if pyStrip nombre = "" then db
  else
    let f := fun (_ : Producto) =>
      { nombre := pyStrip nombre, categoria := categoria, precio := precio,
        stock := stock, activo := activo : Producto }
    { db with productos := updateFirst db.productos pid f }

/-- `productos_eliminar`: `delete_one` on `productos`. -/
def productos_eliminar (db : DB) (pid : Nat) : DB :=
  { db with productos := deleteFirst db.productos pid }

/-! ### Helper definitions used in statements -/

/-- `true` exactly on `Except.ok` (the handler flashed no error). -/
def esOk {α : Type} : Except String α → Bool
  | .ok _ => true
  | .error _ => false

/-- A normalised line that the validation loop of `pedidos_crear`
rejects: product missing or inactive, or stock below the requested
quantity. -/
def lineBad (db : DB) (pq : Nat × Int) : Bool :=
  match findProductoActivo db pq.1 with
  | none => true
  | some prod => decide (prod.stock < pq.2)

/-- A raw form pair that survives the normalisation loop of
`pedidos_crear`: the quantity parses and is positive. -/
def esRawItemValido (pq : RawItem) : Bool :=
  match pq.2 with
  | some q => decide (0 < q)
  | none => false

/-! ### Helper lemmas -/

theorem mem_transicionesList_mem_estados (c n : String)
    (h : n ∈ transicionesList c) : n ∈ estadosValidos := by
  unfold transicionesList at h
  split at h <;> simp_all [estadosValidos]

theorem cambiar_isOk_iff (db : DB) (oid : Nat) (form u : String) (fc : Nat)
    (p : Pedido) (hp : findDoc db.pedidos oid = some p) :
    esOk (cambiar_estado_pedido db oid form u fc) = true ↔
      pyUpper (pyStrip form) ∈ transicionesList (normEstado p.estado) := by
  simp only [cambiar_estado_pedido, hp]
  by_cases hv : pyUpper (pyStrip form) ∈ estadosValidos
  · simp only [if_pos hv]
    by_cases ht : pyUpper (pyStrip form) ∈ transicionesList (normEstado p.estado)
    · simp [ht, esOk]
    · simp [ht, esOk]
  · simp only [if_neg hv]
    constructor
    · intro h; simp [esOk] at h
    · intro h; exact absurd (mem_transicionesList_mem_estados _ _ h) hv

theorem cambiar_run_of_error (db : DB) (oid : Nat) (form u : String) (fc : Nat)
    (h : esOk (cambiar_estado_pedido db oid form u fc) = false) :
    cambiar_estado_pedido_run db oid form u fc = (db, false) := by
  unfold cambiar_estado_pedido_run
  cases hc : cambiar_estado_pedido db oid form u fc with
  | ok effs => rw [hc] at h; simp [esOk] at h
  | error e => rfl

theorem cambiar_ok_shape (db : DB) (oid : Nat) (form u : String) (fc : Nat)
    (p : Pedido) (effs : List Effect)
    (hp : findDoc db.pedidos oid = some p)
    (h : cambiar_estado_pedido db oid form u fc = .ok effs) :
    pyUpper (pyStrip form) ∈ transicionesList (normEstado p.estado) ∧
    effs =
      (if pyUpper (pyStrip form) = "CANCELADO" ∧ ¬normEstado p.estado = "CANCELADO"
       then (db.detalle_pedido.filter (fun d => d.id_pedido = oid)).map
              (fun d => Effect.incStock d.id_producto d.cantidad)
       else []) ++
      [Effect.setEstado oid (pyUpper (pyStrip form)),
       Effect.insertAudit
         { entidad := "pedido", entidad_id := oid, accion := "CAMBIAR_ESTADO",
           antes := normEstado p.estado, despues := pyUpper (pyStrip form),
           usuario_app := u, fecha := fc }] := by
  simp only [cambiar_estado_pedido, hp] at h
  by_cases hv : pyUpper (pyStrip form) ∈ estadosValidos
  · simp only [if_pos hv] at h
    by_cases ht : pyUpper (pyStrip form) ∈ transicionesList (normEstado p.estado)
    · simp only [if_pos ht] at h
      refine ⟨ht, ?_⟩
      exact (Except.ok.injEq _ _ ▸ h).symm
    · simp [if_neg ht] at h
  · simp [if_neg hv] at h

theorem applyEffects_append (db : DB) (l1 l2 : List Effect) :
    applyEffects db (l1 ++ l2) = applyEffects (applyEffects db l1) l2 :=
  List.foldl_append _ _ _ _

theorem applyEffects_incStockMap_auditoria (ds : List Detalle) :
    ∀ db : DB,
      (applyEffects db
        (ds.map fun d => Effect.incStock d.id_producto d.cantidad)).auditoria
        = db.auditoria := by
  induction ds with
  | nil => intro db; rfl
  | cons d t ih =>
    intro db
    simp only [List.map_cons]
    show (applyEffects (applyEffect db _) _).auditoria = _
    rw [ih]
    rfl

theorem valida_ok_props (db : DB) (items : List (Nat × Int)) :
    ∀ (t : ℚ) (ds : List Detalle), valida db items = .ok (t, ds) →
      t = (ds.map Detalle.subtotal).sum ∧
      ∀ d ∈ ds, d.subtotal = d.precio_unit * (d.cantidad : ℚ) := by
  induction items with
  | nil =>
    intro t ds h
    simp only [valida, Except.ok.injEq, Prod.mk.injEq] at h
    obtain ⟨rfl, rfl⟩ := h.symm
    simp
  | cons hd tl ih =>
    intro t ds h
    obtain ⟨pid, q⟩ := hd
    simp only [valida] at h
    split at h
    · exact Except.noConfusion h
    · rename_i prod heq
      split at h
      · exact Except.noConfusion h
      · split at h
        · exact Except.noConfusion h
        · rename_i t' ds' hv
          simp only [Except.ok.injEq, Prod.mk.injEq] at h
          obtain ⟨ht, hds⟩ := h
          obtain ⟨iht, ihall⟩ := ih t' ds' hv
          subst ht
          subst hds
          constructor
          · simp [iht]
          · intro d hd
            rcases List.mem_cons.mp hd with rfl | hmem
            · rfl
            · exact ihall d hmem

theorem valida_bad_not_ok (db : DB) (items : List (Nat × Int))
    (hbad : items.any (lineBad db) = true) :
    esOk (valida db items) = false := by
  induction items with
  | nil => simp at hbad
  | cons hd tl ih =>
    obtain ⟨pid, q⟩ := hd
    simp only [valida]
    split
    · rfl
    · rename_i prod heq
      split
      · rfl
      · rename_i hs
        have htl : tl.any (lineBad db) = true := by
          simp only [List.any_cons, Bool.or_eq_true] at hbad
          rcases hbad with hh | h
          · exfalso
            simp only [lineBad, heq, decide_eq_true_eq] at hh
            exact hs hh
          · exact h
        have hko := ih htl
        cases hv : valida db tl with
        | error e => simp [esOk]
        | ok pr => rw [hv] at hko; simp [esOk] at hko

theorem aplicarDetalles_pedidos (oid : Nat) (ds : List Detalle) :
    ∀ db : DB, (aplicarDetalles oid ds db).pedidos = db.pedidos := by
  induction ds with
  | nil => intro db; rfl
  | cons d t ih => intro db; simp only [aplicarDetalles]; rw [ih]

theorem aplicarDetalles_detalle (oid : Nat) (ds : List Detalle) :
    ∀ db : DB, (aplicarDetalles oid ds db).detalle_pedido =
      db.detalle_pedido ++ ds.map (fun d => { d with id_pedido := oid }) := by
  induction ds with
  | nil => intro db; simp [aplicarDetalles]
  | cons d t ih =>
    intro db
    simp only [aplicarDetalles, List.map_cons]
    rw [ih]
    simp

theorem findDoc_append_fresh {α : Type} (l : List (Nat × α)) (k : Nat) (a : α)
    (hfresh : ∀ pr ∈ l, pr.1 ≠ k) :
    findDoc (l ++ [(k, a)]) k = some a := by
  induction l with
  | nil => simp [findDoc]
  | cons hd t ih =>
    obtain ⟨i, b⟩ := hd
    have hik : i ≠ k := hfresh (i, b) (List.mem_cons_self _ _)
    simp only [List.cons_append, findDoc, if_neg hik]
    exact ih (fun pr hpr => hfresh pr (List.mem_cons_of_mem _ hpr))

theorem pedidos_crear_ok_shape (db : DB) (c : Nat) (raw : List RawItem)
    (m u : String) (f : Nat) (db' : DB) (oid : Nat)
    (h : pedidos_crear db c raw m u f = .ok (db', oid)) :
    oid = db.nextPedidoId ∧
    ∃ t ds, valida db (normaliza raw) = .ok (t, ds) ∧
      db' = aplicarDetalles db.nextPedidoId ds
        { db with
          pedidos := db.pedidos ++ [(db.nextPedidoId, { id_cliente := c, fecha := f, total := t, estado := some "CREADO", metodo_pago := m, creado_por := u })],
          nextPedidoId := db.nextPedidoId + 1 } := by
  by_cases hraw : raw = []
  · subst hraw; simp [pedidos_crear] at h
  · simp only [pedidos_crear, if_neg hraw] at h
    split at h
    · exact Except.noConfusion h
    · rename_i items head tail hitems
      split at h
      · exact Except.noConfusion h
      · rename_i tt ds hv
        simp only [Except.ok.injEq, Prod.mk.injEq] at h
        obtain ⟨hdb, hoid⟩ := h
        subst hoid
        refine ⟨rfl, tt, ds, ?_, hdb.symm⟩
        rw [hitems]
        exact hv

/-! ### Concrete states used by witnesses and counterexamples -/

/-- One active product, stock 5, price 10.0 (the spec's example). -/
def dbEjemplo : DB :=
  { productos := [(1, { nombre := "P", categoria := "C", precio := 10, stock := 5, activo := true })],
    pedidos := [], detalle_pedido := [], auditoria := [], nextPedidoId := 0 }

def pedCreado : Pedido :=
  { id_cliente := 7, fecha := 0, total := 35, estado := some "CREADO",
    metodo_pago := "EFECTIVO", creado_por := "u@x" }

def pedEnviado : Pedido :=
  { id_cliente := 7, fecha := 0, total := 30, estado := some "ENVIADO",
    metodo_pago := "EFECTIVO", creado_por := "u@x" }

def pedCancelado : Pedido :=
  { id_cliente := 7, fecha := 0, total := 30, estado := some "CANCELADO",
    metodo_pago := "EFECTIVO", creado_por := "u@x" }

def pedSinEstado : Pedido :=
  { id_cliente := 7, fecha := 0, total := 30, estado := none,
    metodo_pago := "EFECTIVO", creado_por := "u@x" }

def detLinea1 : Detalle :=
  { id_pedido := 0, id_producto := 1, nombre_producto := "P", cantidad := 3,
    precio_unit := 10, subtotal := 30 }

def detLinea2 : Detalle :=
  { id_pedido := 0, id_producto := 2, nombre_producto := "Q", cantidad := 1,
    precio_unit := 5, subtotal := 5 }

/-- An order in CREADO state with two line items over two products. -/
def dbCreado : DB :=
  { productos := [(1, { nombre := "P", categoria := "C", precio := 10, stock := 2, activo := true }),
                  (2, { nombre := "Q", categoria := "C", precio := 5, stock := 4, activo := true })],
    pedidos := [(0, pedCreado)],
    detalle_pedido := [detLinea1, detLinea2],
    auditoria := [], nextPedidoId := 1 }

/-- An order already in ENVIADO state. -/
def dbEnviado : DB :=
  { productos := [(1, { nombre := "P", categoria := "C", precio := 10, stock := 2, activo := true })],
    pedidos := [(0, pedEnviado)],
    detalle_pedido := [detLinea1],
    auditoria := [], nextPedidoId := 1 }

/-- An order already in CANCELADO state (its stock already restored). -/
def dbCancelado : DB :=
  { productos := [(1, { nombre := "P", categoria := "C", precio := 10, stock := 5, activo := true })],
    pedidos := [(0, pedCancelado)],
    detalle_pedido := [detLinea1],
    auditoria := [], nextPedidoId := 1 }

/-- An order document whose `estado` field is missing. -/
def dbSinEstado : DB :=
  { productos := [(1, { nombre := "P", categoria := "C", precio := 10, stock := 2, activo := true })],
    pedidos := [(0, pedSinEstado)],
    detalle_pedido := [detLinea1],
    auditoria := [], nextPedidoId := 1 }

/-! ### Claims about `cambiar_estado_pedido` -/

/-- C1: for every stored order and requested status, the status change is
accepted exactly when the pair (current status, requested status) is in
the table CREADO→{PAGADO, ENVIADO, CANCELADO}, PAGADO→{ENVIADO,
CANCELADO}, ENVIADO→{PAGADO}, CANCELADO→{}; a pair outside the table is
rejected with the whole database (order status, product stock, audit log)
unchanged. -/
theorem c1_tabla_de_transiciones (db : DB) (oid : Nat) (form u : String)
    (fc : Nat) (p : Pedido) (hp : findDoc db.pedidos oid = some p) :
    (esOk (cambiar_estado_pedido db oid form u fc) = true ↔
      pyUpper (pyStrip form) ∈ transicionesList (normEstado p.estado)) ∧
    (esOk (cambiar_estado_pedido db oid form u fc) = false →
      cambiar_estado_pedido_run db oid form u fc = (db, false)) :=
  ⟨cambiar_isOk_iff db oid form u fc p hp,
   fun h => cambiar_run_of_error db oid form u fc h⟩

/-- Witness for C1 at the spec's example: an ENVIADO order receiving a
request for CREADO is rejected and the database is unchanged. -/
theorem c1_tabla_de_transiciones_witness :
    ((esOk (cambiar_estado_pedido dbEnviado 0 "CREADO" "adm" 5) = true ↔
      pyUpper (pyStrip "CREADO") ∈ transicionesList (normEstado pedEnviado.estado)) ∧
     (esOk (cambiar_estado_pedido dbEnviado 0 "CREADO" "adm" 5) = false →
      cambiar_estado_pedido_run dbEnviado 0 "CREADO" "adm" 5 = (dbEnviado, false))) ∧
    esOk (cambiar_estado_pedido dbEnviado 0 "CREADO" "adm" 5) = false :=
  ⟨c1_tabla_de_transiciones dbEnviado 0 "CREADO" "adm" 5 pedEnviado (by decide),
   by decide⟩

/-- C4: once an order is CANCELADO, every further status request
(including a repeated CANCELADO) is rejected by the terminal-state rule
and the database — in particular every product's stock — is unchanged, so
redundant cancellation is idempotent on stock. -/
theorem c4_cancelado_es_terminal (db : DB) (oid : Nat) (form u : String)
    (fc : Nat) (p : Pedido) (hp : findDoc db.pedidos oid = some p)
    (hc : normEstado p.estado = "CANCELADO") :
    esOk (cambiar_estado_pedido db oid form u fc) = false ∧
    cambiar_estado_pedido_run db oid form u fc = (db, false) := by
  have hiff := cambiar_isOk_iff db oid form u fc p hp
  rw [hc] at hiff
  have hko : esOk (cambiar_estado_pedido db oid form u fc) = false := by
    cases hok : esOk (cambiar_estado_pedido db oid form u fc)
    · rfl
    · exact absurd (hiff.mp hok) (by simp [transicionesList])
  exact ⟨hko, cambiar_run_of_error db oid form u fc hko⟩

/-- Witness for C4: repeating the cancellation request on an already
cancelled order changes nothing; the product's stock stays restored. -/
theorem c4_cancelado_es_terminal_witness :
    (esOk (cambiar_estado_pedido dbCancelado 0 "CANCELADO" "adm" 5) = false ∧
     cambiar_estado_pedido_run dbCancelado 0 "CANCELADO" "adm" 5 = (dbCancelado, false)) ∧
    (findDoc dbCancelado.productos 1).map Producto.stock = some 5 :=
  ⟨c4_cancelado_es_terminal dbCancelado 0 "CANCELADO" "adm" 5 pedCancelado
     (by decide) (by decide),
   by decide⟩

/-- C3: an accepted transition into CANCELADO performs, in program order,
one stock increment per line item of the order — each by exactly that
line's quantity — and only then the status write (followed by the audit
insert). -/
theorem c3_restock_antes_del_estado (db : DB) (oid : Nat) (form u : String)
    (fc : Nat) (p : Pedido) (effs : List Effect)
    (hp : findDoc db.pedidos oid = some p)
    (h : cambiar_estado_pedido db oid form u fc = .ok effs)
    (hn : pyUpper (pyStrip form) = "CANCELADO") :
    ¬normEstado p.estado = "CANCELADO" ∧
    effs = (db.detalle_pedido.filter (fun d => d.id_pedido = oid)).map
        (fun d => Effect.incStock d.id_producto d.cantidad) ++
      [Effect.setEstado oid "CANCELADO",
       Effect.insertAudit { entidad := "pedido", entidad_id := oid, accion := "CAMBIAR_ESTADO", antes := normEstado p.estado, despues := "CANCELADO", usuario_app := u, fecha := fc }] := by
  obtain ⟨ht, hshape⟩ := cambiar_ok_shape db oid form u fc p effs hp h
  rw [hn] at ht hshape
  have hne : ¬normEstado p.estado = "CANCELADO" := by
    intro hcc
    rw [hcc] at ht
    simp [transicionesList] at ht
  refine ⟨hne, ?_⟩
  rw [hshape, if_pos ⟨rfl, hne⟩]

/-- The effect trace of cancelling `dbCreado`'s order 0. -/
def effsCancelacion : List Effect :=
  [Effect.incStock 1 3, Effect.incStock 2 1, Effect.setEstado 0 "CANCELADO",
   Effect.insertAudit { entidad := "pedido", entidad_id := 0, accion := "CAMBIAR_ESTADO", antes := "CREADO", despues := "CANCELADO", usuario_app := "adm", fecha := 5 }]

/-- Witness for C3: cancelling a CREADO order with two line items yields
the two stock increments (quantities 3 and 1) strictly before the status
write. -/
theorem c3_restock_antes_del_estado_witness :
    ¬normEstado pedCreado.estado = "CANCELADO" ∧
    effsCancelacion = (dbCreado.detalle_pedido.filter (fun d => d.id_pedido = 0)).map
        (fun d => Effect.incStock d.id_producto d.cantidad) ++
      [Effect.setEstado 0 "CANCELADO",
       Effect.insertAudit { entidad := "pedido", entidad_id := 0, accion := "CAMBIAR_ESTADO", antes := normEstado pedCreado.estado, despues := "CANCELADO", usuario_app := "adm", fecha := 5 }] := by
  have h : cambiar_estado_pedido dbCreado 0 " cancelado " "adm" 5 = .ok effsCancelacion := by
    rfl
  exact c3_restock_antes_del_estado dbCreado 0 " cancelado " "adm" 5 pedCreado
    effsCancelacion (by decide) h (by decide)

/-- C5: an accepted transition appends exactly one audit record, holding
the prior status, the new status, the acting user and the timestamp; a
rejected transition appends none. -/
theorem c5_una_auditoria_por_transicion (db : DB) (oid : Nat)
    (form u : String) (fc : Nat) (p : Pedido)
    (hp : findDoc db.pedidos oid = some p) :
    (cambiar_estado_pedido_run db oid form u fc).1.auditoria =
      (if esOk (cambiar_estado_pedido db oid form u fc) = true
       then db.auditoria ++ [{ entidad := "pedido", entidad_id := oid, accion := "CAMBIAR_ESTADO", antes := normEstado p.estado, despues := pyUpper (pyStrip form), usuario_app := u, fecha := fc }]
       else db.auditoria) := by
  cases hc : cambiar_estado_pedido db oid form u fc with
  | error e =>
    simp [cambiar_estado_pedido_run, hc, esOk]
  | ok effs =>
    obtain ⟨ht, hshape⟩ := cambiar_ok_shape db oid form u fc p effs hp hc
    simp only [esOk, cambiar_estado_pedido_run, hc]
    rw [if_pos trivial, hshape, applyEffects_append]
    have hbase :
        (applyEffects db
          (if pyUpper (pyStrip form) = "CANCELADO" ∧ ¬normEstado p.estado = "CANCELADO"
           then (db.detalle_pedido.filter (fun d => d.id_pedido = oid)).map
                  (fun d => Effect.incStock d.id_producto d.cantidad)
           else [])).auditoria = db.auditoria := by
      split
      · rw [applyEffects_incStockMap_auditoria]
      · rfl
    rw [show ∀ (X : DB) (a b : Effect),
          applyEffects X [a, b] = applyEffect (applyEffect X a) b
        from fun X a b => rfl]
    simp only [applyEffect]
    rw [hbase]

/-- Witness for C5: paying a CREADO order appends exactly the one audit
record CREADO→PAGADO. -/
theorem c5_una_auditoria_por_transicion_witness :
    (cambiar_estado_pedido_run dbCreado 0 "PAGADO" "adm" 5).1.auditoria =
      (if esOk (cambiar_estado_pedido dbCreado 0 "PAGADO" "adm" 5) = true
       then dbCreado.auditoria ++ [{ entidad := "pedido", entidad_id := 0, accion := "CAMBIAR_ESTADO", antes := normEstado pedCreado.estado, despues := pyUpper (pyStrip "PAGADO"), usuario_app := "adm", fecha := 5 }]
       else dbCreado.auditoria) :=
  c5_una_auditoria_por_transicion dbCreado 0 "PAGADO" "adm" 5 pedCreado (by decide)

/-- C10: `cambiar_estado_pedido` consults the transition table at the
trimmed-and-uppercased current and requested statuses; a missing or empty
stored status is treated as CREADO, any other stored string enters the
table trimmed and upper-cased. -/
theorem c10_normalizacion_de_estados (db : DB) (oid : Nat) (form u : String)
    (fc : Nat) (p : Pedido) (hp : findDoc db.pedidos oid = some p) :
    (esOk (cambiar_estado_pedido db oid form u fc) = true ↔
      pyUpper (pyStrip form) ∈ transicionesList (normEstado p.estado)) ∧
    (p.estado = none → normEstado p.estado = "CREADO") ∧
    (p.estado = some "" → normEstado p.estado = "CREADO") ∧
    (p.estado ≠ none → p.estado ≠ some "" →
      normEstado p.estado = pyUpper (pyStrip (p.estado.getD ""))) := by
  refine ⟨cambiar_isOk_iff db oid form u fc p hp, ?_, ?_, ?_⟩
  · intro h; rw [h]; rfl
  · intro h; rw [h]; rfl
  · intro h1 h2
    cases hes : p.estado with
    | none => exact absurd hes h1
    | some s =>
      have hs : ¬s = "" := by
        intro hs0
        rw [hes, hs0] at h2
        exact h2 rfl
      simp [normEstado, hs]

/-- Witness for C10: an order document with no `estado` field follows the
CREADO row — a request " pagado " (lower case, padded) is accepted. -/
theorem c10_normalizacion_de_estados_witness :
    ((esOk (cambiar_estado_pedido dbSinEstado 0 " pagado " "adm" 5) = true ↔
      pyUpper (pyStrip " pagado ") ∈ transicionesList (normEstado pedSinEstado.estado)) ∧
     (pedSinEstado.estado = none → normEstado pedSinEstado.estado = "CREADO") ∧
     (pedSinEstado.estado = some "" → normEstado pedSinEstado.estado = "CREADO") ∧
     (pedSinEstado.estado ≠ none → pedSinEstado.estado ≠ some "" →
      normEstado pedSinEstado.estado = pyUpper (pyStrip (pedSinEstado.estado.getD "")))) ∧
    esOk (cambiar_estado_pedido dbSinEstado 0 " pagado " "adm" 5) = true :=
  ⟨c10_normalizacion_de_estados dbSinEstado 0 " pagado " "adm" 5 pedSinEstado
     (by decide),
   by decide⟩

theorem filter_stamped (dets ds : List Detalle) (n : Nat)
    (hfD : ∀ d ∈ dets, d.id_pedido ≠ n) :
    ((dets ++ ds.map (fun (d : Detalle) => { d with id_pedido := n })).filter
        (fun d => d.id_pedido = n)) =
      ds.map (fun (d : Detalle) => { d with id_pedido := n }) := by
  rw [List.filter_append]
  rw [List.filter_eq_nil_iff.mpr (fun d hd => by simpa using hfD d hd)]
  rw [List.filter_eq_self.mpr (fun d hd => by
    obtain ⟨d0, _, rfl⟩ := List.mem_map.mp hd
    simp)]
  simp

/-! ### Claims about `pedidos_crear` -/

/-- C2: a successfully created order's persisted total equals the sum of
its stored line subtotals, and each stored line subtotal equals the
snapshotted unit price times the line quantity (hence the total is the
sum of unit price × quantity over the lines).  The freshness hypotheses
say the generated order id is new, as Mongo guarantees for `_id`s. -/
theorem c2_total_es_suma_de_subtotales (db : DB) (c : Nat)
    (raw : List RawItem) (m u : String) (f : Nat) (db' : DB) (oid : Nat)
    (h : pedidos_crear db c raw m u f = .ok (db', oid))
    (hfP : ∀ pr ∈ db.pedidos, pr.1 ≠ db.nextPedidoId)
    (hfD : ∀ d ∈ db.detalle_pedido, d.id_pedido ≠ db.nextPedidoId) :
    ∃ ped, findDoc db'.pedidos oid = some ped ∧
      ped.total = ((db'.detalle_pedido.filter (fun d => d.id_pedido = oid)).map Detalle.subtotal).sum ∧
      (db'.detalle_pedido.filter (fun d => d.id_pedido = oid)).all
        (fun d => d.subtotal == d.precio_unit * (d.cantidad : ℚ)) = true := by
  obtain ⟨hoid, t, ds, hv, hdb'⟩ := pedidos_crear_ok_shape db c raw m u f db' oid h
  obtain ⟨htot, hall⟩ := valida_ok_props db (normaliza raw) t ds hv
  subst hoid
  subst hdb'
  rw [aplicarDetalles_pedidos, aplicarDetalles_detalle]
  dsimp only
  rw [filter_stamped db.detalle_pedido ds db.nextPedidoId hfD]
  refine ⟨{ id_cliente := c, fecha := f, total := t, estado := some "CREADO", metodo_pago := m, creado_por := u }, findDoc_append_fresh db.pedidos db.nextPedidoId _ hfP, ?_, ?_⟩
  · show t = _
    rw [List.map_map]
    exact htot
  · rw [List.all_eq_true]
    intro d hd
    obtain ⟨d0, hd0, rfl⟩ := List.mem_map.mp hd
    simpa using hall d0 hd0

/-- Witness for C2 at the spec's example: product with stock 5 and price
10.0, an order of quantity 3 → total 30.0, subtotal 30.0 = 10.0 × 3, and
the product's stock becomes 2. -/
theorem c2_total_es_suma_de_subtotales_witness :
    (∃ ped, findDoc (pedidos_crear_run dbEjemplo 7 [(1, some 3)] "EFECTIVO" "u@x" 0).1.pedidos 0 = some ped ∧
      ped.total = (((pedidos_crear_run dbEjemplo 7 [(1, some 3)] "EFECTIVO" "u@x" 0).1.detalle_pedido.filter (fun d => d.id_pedido = 0)).map Detalle.subtotal).sum ∧
      ((pedidos_crear_run dbEjemplo 7 [(1, some 3)] "EFECTIVO" "u@x" 0).1.detalle_pedido.filter (fun d => d.id_pedido = 0)).all
        (fun d => d.subtotal == d.precio_unit * (d.cantidad : ℚ)) = true) ∧
    (∃ ped, findDoc (pedidos_crear_run dbEjemplo 7 [(1, some 3)] "EFECTIVO" "u@x" 0).1.pedidos 0 = some ped ∧ ped.total = 30) ∧
    (findDoc (pedidos_crear_run dbEjemplo 7 [(1, some 3)] "EFECTIVO" "u@x" 0).1.productos 1).map Producto.stock = some 2 := by
  refine ⟨?_, ?_, by decide⟩
  · have h : pedidos_crear dbEjemplo 7 [(1, some 3)] "EFECTIVO" "u@x" 0 =
        .ok ((pedidos_crear_run dbEjemplo 7 [(1, some 3)] "EFECTIVO" "u@x" 0).1, 0) := rfl
    exact c2_total_es_suma_de_subtotales dbEjemplo 7 [(1, some 3)] "EFECTIVO" "u@x" 0
      (pedidos_crear_run dbEjemplo 7 [(1, some 3)] "EFECTIVO" "u@x" 0).1 0 h
      (by decide) (by decide)
  · refine ⟨{ id_cliente := 7, fecha := 0, total := 10 * ((3:ℤ) : ℚ) + 0, estado := some "CREADO", metodo_pago := "EFECTIVO", creado_por := "u@x" }, rfl, ?_⟩
    show (10 * ((3:ℤ) : ℚ) + 0 : ℚ) = 30
    norm_num

theorem pedidos_crear_run_of_error (db : DB) (c : Nat) (raw : List RawItem)
    (m u : String) (f : Nat)
    (h : esOk (pedidos_crear db c raw m u f) = false) :
    pedidos_crear_run db c raw m u f = (db, false) := by
  unfold pedidos_crear_run
  cases hc : pedidos_crear db c raw m u f with
  | ok pr => rw [hc] at h; simp [esOk] at h
  | error e => rfl

theorem pedidos_crear_bad_not_ok (db : DB) (c : Nat) (raw : List RawItem)
    (m u : String) (f : Nat)
    (hbad : (normaliza raw).any (lineBad db) = true) :
    esOk (pedidos_crear db c raw m u f) = false := by
  by_cases hraw : raw = []
  · subst hraw
    simp [normaliza] at hbad
  · simp only [pedidos_crear, if_neg hraw]
    split
    · rfl
    · rename_i items head tail hitems
      have hko := valida_bad_not_ok db (head :: tail) (by rw [← hitems]; exact hbad)
      split
      · rfl
      · rename_i t ds hv
        rw [hv] at hko
        simp [esOk] at hko

/-- C6: an order-creation request with a line whose product is missing
or inactive, or whose quantity exceeds that product's current stock, is
rejected as a whole: no order document, no line items, and no stock
change — the database is returned untouched. -/
theorem c6_rechazo_sin_efectos (db : DB) (c : Nat) (raw : List RawItem)
    (m u : String) (f : Nat)
    (hbad : (normaliza raw).any (lineBad db) = true) :
    pedidos_crear_run db c raw m u f = (db, false) :=
  pedidos_crear_run_of_error db c raw m u f
    (pedidos_crear_bad_not_ok db c raw m u f hbad)

/-- Witness for C6: a two-line request whose second line references a
product that does not exist is rejected outright, leaving `dbEjemplo`
(product 1, stock 5) unchanged. -/
theorem c6_rechazo_sin_efectos_witness :
    pedidos_crear_run dbEjemplo 7 [(1, some 3), (2, some 1)] "EFECTIVO" "u@x" 0 = (dbEjemplo, false) :=
  c6_rechazo_sin_efectos dbEjemplo 7 [(1, some 3), (2, some 1)] "EFECTIVO" "u@x" 0 (by decide)

theorem normaliza_filter (raw : List RawItem) :
    normaliza (raw.filter esRawItemValido) = normaliza raw := by
  induction raw with
  | nil => rfl
  | cons pq t ih =>
    obtain ⟨pid, oq⟩ := pq
    cases oq with
    | none => simpa [normaliza, esRawItemValido, List.filter_cons] using ih
    | some q =>
      by_cases hq : 0 < q
      · simpa [normaliza, esRawItemValido, List.filter_cons, hq] using ih
      · simpa [normaliza, esRawItemValido, List.filter_cons, hq] using ih

/-- C7 counterexample: the claim says a request containing a pair whose
quantity is not a positive integer aborts the whole order with nothing
persisted; but on `dbEjemplo` the request [(1, unparsable), (1, 2)]
succeeds, persists one order with one line item, and decrements stock. -/
theorem c7_contraejemplo_par_invalido_ignorado :
    (pedidos_crear_run dbEjemplo 7 [(1, none), (1, some 2)] "EFECTIVO" "u@x" 0).2 = true ∧
    (pedidos_crear_run dbEjemplo 7 [(1, none), (1, some 2)] "EFECTIVO" "u@x" 0).1.pedidos.length = 1 ∧
    (pedidos_crear_run dbEjemplo 7 [(1, none), (1, some 2)] "EFECTIVO" "u@x" 0).1.detalle_pedido.length = 1 ∧
    (findDoc (pedidos_crear_run dbEjemplo 7 [(1, none), (1, some 2)] "EFECTIVO" "u@x" 0).1.productos 1).map Producto.stock = some 3 := by
  refine ⟨rfl, rfl, rfl, by decide⟩

/-- C7 amended: a pair whose quantity fails to parse as an integer or is
not positive is silently dropped by the normalisation loop; provided at
least one valid pair remains, the request behaves exactly as if the
invalid pairs had not been sent (and only when no valid pair remains is
the whole request rejected with nothing persisted). -/
theorem c7_amended_pares_invalidos_filtrados (db : DB) (c : Nat)
    (raw : List RawItem) (m u : String) (f : Nat)
    (hne : normaliza raw ≠ []) :
    pedidos_crear db c raw m u f =
      pedidos_crear db c (raw.filter esRawItemValido) m u f := by
  have hnf : normaliza (raw.filter esRawItemValido) = normaliza raw :=
    normaliza_filter raw
  have hraw : raw ≠ [] := by
    intro h0
    subst h0
    exact hne rfl
  have hfil : raw.filter esRawItemValido ≠ [] := by
    intro h0
    rw [h0] at hnf
    exact hne hnf.symm
  unfold pedidos_crear
  rw [if_neg hraw, if_neg hfil, hnf]

/-- Witness for C7's amended claim: the request with an unparsable
quantity behaves exactly like the request with that pair removed. -/
theorem c7_amended_pares_invalidos_filtrados_witness :
    pedidos_crear dbEjemplo 7 [(1, none), (1, some 2)] "EFECTIVO" "u@x" 0 =
      pedidos_crear dbEjemplo 7 ([(1, none), (1, some 2)].filter esRawItemValido) "EFECTIVO" "u@x" 0 :=
  c7_amended_pares_invalidos_filtrados dbEjemplo 7 [(1, none), (1, some 2)] "EFECTIVO" "u@x" 0 (by decide)

/-- C8 exhibits the code bug: with product 1 at stock 5, the request
listing product 1 twice with quantity 3 each passes validation (each
line is checked against the still-undecremented stock 5), the order is
created, and the two decrements drive the stock to −1 — violating the
spec's "stock must never go negative" invariant on a purely sequential
input. -/
theorem c8_stock_negativo_con_lineas_duplicadas :
    (pedidos_crear_run dbEjemplo 7 [(1, some 3), (1, some 3)] "EFECTIVO" "u@x" 0).2 = true ∧
    (findDoc (pedidos_crear_run dbEjemplo 7 [(1, some 3), (1, some 3)] "EFECTIVO" "u@x" 0).1.productos 1).map Producto.stock = some (-1) :=
  ⟨rfl, by decide⟩

/-! ### Claim about `productos_actualizar` / `productos_eliminar` -/

/-- C9: updating a product (name, category, price, stock, active flag)
or deleting it touches only the `productos` collection: every stored
order and every snapshotted line item is unchanged, so an order's total
still equals the sum of its line subtotals at price-at-order-time. -/
theorem c9_pedidos_inmunes_a_ediciones (db : DB) (pid : Nat)
    (n cat : String) (pr : ℚ) (st : Int) (act : Bool) (oid : Nat)
    (ped : Pedido) (hp : findDoc db.pedidos oid = some ped)
    (htot : ped.total = ((db.detalle_pedido.filter (fun d => d.id_pedido = oid)).map Detalle.subtotal).sum) :
    (productos_actualizar db pid n cat pr st act).pedidos = db.pedidos ∧
    (productos_actualizar db pid n cat pr st act).detalle_pedido = db.detalle_pedido ∧
    (productos_eliminar db pid).pedidos = db.pedidos ∧
    (productos_eliminar db pid).detalle_pedido = db.detalle_pedido ∧
    findDoc (productos_actualizar db pid n cat pr st act).pedidos oid = some ped ∧
    ped.total = (((productos_actualizar db pid n cat pr st act).detalle_pedido.filter (fun d => d.id_pedido = oid)).map Detalle.subtotal).sum ∧
    ped.total = (((productos_eliminar db pid).detalle_pedido.filter (fun d => d.id_pedido = oid)).map Detalle.subtotal).sum := by
  have hU : (productos_actualizar db pid n cat pr st act).pedidos = db.pedidos ∧
      (productos_actualizar db pid n cat pr st act).detalle_pedido = db.detalle_pedido := by
    unfold productos_actualizar
    split
    · exact ⟨rfl, rfl⟩
    · exact ⟨rfl, rfl⟩
  refine ⟨hU.1, hU.2, rfl, rfl, ?_, ?_, ?_⟩
  · rw [hU.1]; exact hp
  · rw [hU.2]; exact htot
  · exact htot

/-- Witness for C9: after re-pricing product 1 from 10 to 20 (and even
deleting it), the ENVIADO order keeps total 30 = its snapshotted line
subtotal. -/
theorem c9_pedidos_inmunes_a_ediciones_witness :
    ((productos_actualizar dbEnviado 1 "N" "K" 20 9 false).pedidos = dbEnviado.pedidos ∧
     (productos_actualizar dbEnviado 1 "N" "K" 20 9 false).detalle_pedido = dbEnviado.detalle_pedido ∧
     (productos_eliminar dbEnviado 1).pedidos = dbEnviado.pedidos ∧
     (productos_eliminar dbEnviado 1).detalle_pedido = dbEnviado.detalle_pedido ∧
     findDoc (productos_actualizar dbEnviado 1 "N" "K" 20 9 false).pedidos 0 = some pedEnviado ∧
     pedEnviado.total = (((productos_actualizar dbEnviado 1 "N" "K" 20 9 false).detalle_pedido.filter (fun d => d.id_pedido = 0)).map Detalle.subtotal).sum ∧
     pedEnviado.total = (((productos_eliminar dbEnviado 1).detalle_pedido.filter (fun d => d.id_pedido = 0)).map Detalle.subtotal).sum) ∧
    (findDoc (productos_actualizar dbEnviado 1 "N" "K" 20 9 false).productos 1).map Producto.precio = some 20 :=
  ⟨c9_pedidos_inmunes_a_ediciones dbEnviado 1 "N" "K" 20 9 false 0 pedEnviado
     (by decide)
     (by simp [dbEnviado, detLinea1, pedEnviado, List.filter]),
   by decide⟩

end MongoBites
